import Mathlib

/-! Shallow embedding of the presence-and-relay core of `src/server.js`:
the rate limiter (`isRateLimited`), the presence registry (`userSockets`,
written by the `register` handler, read by the relay handlers, cleaned in
the `disconnect` handler), the per-socket attached identifier
(`socket.data.pubKey`), and the room broadcast used by `signal` / `auth`.

Modelling conventions:
- JS string maps (`userSockets`, the `rateLimit` Map) become functions
  `String → Option _`; `delete` / `set` become pointwise updates.
- `Date.now()` timestamps are `Int` (JS number subtraction and `>` on
  the relevant integer range).
- A handler that may emit becomes a function returning the new state
  together with the emissions (`Option (String × OutEvent)` for the
  peer-to-peer relays, a recipient list for room broadcast).
- The `register` payload is `Option String`: `none` models an
  absent/null argument, `some ""` the empty string; JS truthiness
  `!pubKey` is `none` or `some ""`.
-/

/-- Character class of the JavaScript regex `\s` (whitespace), which the
replace call in `normKey` strips from the key. -/
def isJsWhitespace (c : Char) : Bool :=
  c = ' ' || c = '\t' || c = '\n' || c.val = 11 || c.val = 12 || c = '\r' ||
  c.val = 0xa0 || c.val = 0x1680 || (0x2000 ≤ c.val && c.val ≤ 0x200a) ||
  c.val = 0x2028 || c.val = 0x2029 || c.val = 0x202f || c.val = 0x205f ||
  c.val = 0x3000 || c.val = 0xfeff

/-- Helper `normKey` of `src/server.js` line 111, restricted to strings:
replace every run of `\s` whitespace with the empty string, i.e. remove
every whitespace character. -/
def normKey (k : String) : String :=
  ⟨k.data.filter (fun c => !isJsWhitespace c)⟩

/-- One entry of the `rateLimit` Map: `{ count, startTime }`. -/
structure RateRecord where
  count : Nat
  startTime : Int
deriving DecidableEq

/-- The `rateLimit` Map, keyed by origin address (`socket.handshake.address`). -/
def RateTable : Type := String → Option RateRecord

/-- `const LIMIT = 20;` -/
def LIMIT : Nat := 20

/-- `const TIME_FRAME = 60 * 1000;` -/
def TIME_FRAME : Int := 60000

/-- `rateLimit.set(ip, r)` (also models the in-place `record.count++`,
which mutates the record stored in the Map). -/
def setRate (rl : RateTable) (ip : String) (r : RateRecord) : RateTable :=
  fun x => if x = ip then some r else rl x

/-- `function isRateLimited(socket)` of `src/server.js` lines 37-61,
with the origin address and the current time passed explicitly.
Returns the boolean result and the updated `rateLimit` Map. -/
def isRateLimited (ip : String) (now : Int) (rl : RateTable) :
    Bool × RateTable :=
  match rl ip with
  | none => (false, setRate rl ip ⟨1, now⟩)
  | some record =>
    if now - record.startTime > TIME_FRAME then
      (false, setRate rl ip ⟨1, now⟩)
    else if record.count ≥ LIMIT then
      (true, rl)
    else
      (false, setRate rl ip ⟨record.count + 1, record.startTime⟩)

/-- The server's mutable state relevant to the presence-and-relay core:
`userSockets` (identifier → socket id), each socket's `data.pubKey`
(socket id → attached identifier), the `rateLimit` Map, and room
membership (room name → member socket ids, held by the transport). -/
structure ServerState where
  userSockets : String → Option String
  sockData : String → Option String
  rateLimit : RateTable
  rooms : String → List String

/-- Body of the `register` handler after the rate-limit gate:
`if (!pubKey) return; const key = normKey(pubKey); userSockets[key] = socket.id;
socket.data.pubKey = key;`. -/
def registerCore (σ : ServerState) (sid : String) (pubKey : Option String) :
    ServerState :=
  match pubKey with
  | none => σ
  | some pk =>
    if pk = "" then σ
    else
      { σ with
        userSockets := fun k => if k = normKey pk then some sid else σ.userSockets k,
        sockData := fun s => if s = sid then some (normKey pk) else σ.sockData s }

/-- The `socket.on("register", ...)` handler (lines 117-127): consult the
rate limiter first (this updates the `rateLimit` Map), drop the event if
limited, otherwise run the registration body. -/
def register (σ : ServerState) (sid ip : String) (pubKey : Option String)
    (now : Int) : ServerState :=
  let p := isRateLimited ip now σ.rateLimit
  if p.1 then { σ with rateLimit := p.2 }
  else registerCore { σ with rateLimit := p.2 } sid pubKey

/-- Presence-registry lookup as every relay handler performs it:
`userSockets[normKey(x)]`. -/
def resolve (σ : ServerState) (idf : String) : Option String :=
  σ.userSockets (normKey idf)

/-- The `socket.on("disconnect", ...)` handler (lines 205-212):
`if (socket.data.pubKey) { delete userSockets[socket.data.pubKey]; }`.
The truthiness test means an empty-string attached key is not cleaned. -/
def disconnect (σ : ServerState) (sid : String) : ServerState :=
  match σ.sockData sid with
  | none => σ
  | some pk =>
    if pk = "" then σ
    else { σ with userSockets := fun k => if k = pk then none else σ.userSockets k }

/-- Outbound events the relay handlers can emit; `sender` is the `from`
field of the payload (already normalized by the handler). -/
inductive OutEvent where
  | incomingRequest (sender : String)
  | connectionAccepted (sender : String)
  | incomingCall (sender : String) (callType : String)
  | callAccepted (sender : String)
  | callRejected (sender : String)
  | callEnded (sender : String)
deriving DecidableEq

/-- The `socket.on("request-connection", ...)` handler (lines 130-142):
rate-limited; resolves `to`, and if found emits `incoming-request`
to the target socket, else logs and drops. `toKey`/`fromKey` are the
`to`/`from` fields of the inbound payload. -/
def requestConnection (σ : ServerState) (ip toKey fromKey : String)
    (now : Int) : ServerState × Option (String × OutEvent) :=
  let p := isRateLimited ip now σ.rateLimit
  if p.1 then ({ σ with rateLimit := p.2 }, none)
  else
    match σ.userSockets (normKey toKey) with
    | some targetId =>
      ({ σ with rateLimit := p.2 }, some (targetId, .incomingRequest (normKey fromKey)))
    | none => ({ σ with rateLimit := p.2 }, none)

/-- The `socket.on("accept-connection", ...)` handler (lines 145-153):
not rate-limited; resolves `to`, emits `connection-accepted` if found. -/
def acceptConnection (σ : ServerState) (toKey fromKey : String) :
    ServerState × Option (String × OutEvent) :=
  match σ.userSockets (normKey toKey) with
  | some targetId => (σ, some (targetId, .connectionAccepted (normKey fromKey)))
  | none => (σ, none)

/-- The `socket.on("call-request", ...)` handler (lines 157-163):
not rate-limited; carries the extra `callType` field through unchanged. -/
def callRequest (σ : ServerState) (toKey fromKey callType : String) :
    ServerState × Option (String × OutEvent) :=
  match σ.userSockets (normKey toKey) with
  | some targetId => (σ, some (targetId, .incomingCall (normKey fromKey) callType))
  | none => (σ, none)

/-- The `socket.on("call-accepted", ...)` handler (lines 165-171). -/
def callAccepted (σ : ServerState) (toKey fromKey : String) :
    ServerState × Option (String × OutEvent) :=
  match σ.userSockets (normKey toKey) with
  | some targetId => (σ, some (targetId, .callAccepted (normKey fromKey)))
  | none => (σ, none)

/-- The `socket.on("call-rejected", ...)` handler (lines 173-179). -/
def callRejected (σ : ServerState) (toKey fromKey : String) :
    ServerState × Option (String × OutEvent) :=
  match σ.userSockets (normKey toKey) with
  | some targetId => (σ, some (targetId, .callRejected (normKey fromKey)))
  | none => (σ, none)

/-- The `socket.on("call-ended", ...)` handler (lines 181-187). -/
def callEnded (σ : ServerState) (toKey fromKey : String) :
    ServerState × Option (String × OutEvent) :=
  match σ.userSockets (normKey toKey) with
  | some targetId => (σ, some (targetId, .callEnded (normKey fromKey)))
  | none => (σ, none)

/-- The `socket.on("join", ...)` handler (lines 192-195): `socket.join(room)`.
Socket.io rooms are sets of sockets, so a repeated join is idempotent. -/
def joinRoom (σ : ServerState) (sid room : String) : ServerState :=
  { σ with
    rooms := fun r =>
      if r = room then
        (if sid ∈ σ.rooms room then σ.rooms room else σ.rooms room ++ [sid])
      else σ.rooms r }

/-- Socket.io's `socket.to(room).emit(name, payload)`: deliver `payload`
unchanged to every current member of `room` except the sender. -/
def broadcastToRoom {α : Type} (rooms : String → List String)
    (sender room : String) (payload : α) : List (String × α) :=
  ((rooms room).filter (fun m => m ≠ sender)).map (fun m => (m, payload))

/-- The `socket.on("signal", ...)` handler (lines 197-199):
`socket.to(room).emit("signal", payload)`; no state change. -/
def signalHandler {α : Type} (σ : ServerState) (sender room : String)
    (payload : α) : ServerState × List (String × α) :=
  (σ, broadcastToRoom σ.rooms sender room payload)

/-- The `socket.on("auth", ...)` handler (lines 201-203):
`socket.to(room).emit("auth", payload)`; no state change. -/
def authHandler {α : Type} (σ : ServerState) (sender room : String)
    (payload : α) : ServerState × List (String × α) :=
  (σ, broadcastToRoom σ.rooms sender room payload)

/-- A fresh server: empty registry, no socket data, empty rate table,
no room members. -/
def initialState : ServerState :=
  { userSockets := fun _ => none
    sockData := fun _ => none
    rateLimit := fun _ => none
    rooms := fun _ => [] }

/-- A sequence of `register` events issued by one socket from one origin,
given as (payload, time) pairs, applied left to right. -/
def applyRegisters (σ : ServerState) (sid ip : String)
    (evs : List (Option String × Int)) : ServerState :=
  evs.foldl (fun s e => register s sid ip e.1 e.2) σ

/-- A sequence of rate-limit checks for one origin at the given times;
returns the list of results (`true` = limited/rejected) and the final
`rateLimit` Map. -/
def runChecks (ip : String) (rl : RateTable) (ts : List Int) :
    List Bool × RateTable :=
  match ts with
  | [] => ([], rl)
  | t :: ts2 =>
    let p := isRateLimited ip t rl
    let q := runChecks ip p.2 ts2
    (p.1 :: q.1, q.2)

/-- A rate table in which every origin has exhausted its window that
started at time 0. -/
def rateFullTable : RateTable := fun _ => some ⟨LIMIT, 0⟩

/-- A server with the full rate table and nothing registered. -/
def rateFullState : ServerState := { initialState with rateLimit := rateFullTable }

/-- A server in which identifier `"a"` is registered to socket `"sa"`. -/
def regAState : ServerState :=
  { initialState with userSockets := fun k => if k = "a" then some "sa" else none }

/-- The same registry as `regAState` but with the rate table exhausted. -/
def regAFullState : ServerState := { regAState with rateLimit := rateFullTable }

/-- A server in which sockets `"x"` and `"y"` are members of room `"r"`. -/
def roomState : ServerState :=
  { initialState with rooms := fun r => if r = "r" then ["x", "y"] else [] }

/-- In every branch of the `register` handler the `rateLimit` Map ends up
as `isRateLimited` left it; the gate runs before the `!pubKey` check. -/
lemma register_rateLimit_eq (σ : ServerState) (sid ip : String)
    (pubKey : Option String) (now : Int) :
    (register σ sid ip pubKey now).rateLimit = (isRateLimited ip now σ.rateLimit).2 := by
  simp only [register]
  split
  · rfl
  · simp only [registerCore]
    cases pubKey with
    | none => rfl
    | some pk =>
      by_cases h : pk = "" <;> simp [h]

/-- An admitted registration of a truthy identifier writes
`userSockets[normKey pk] = sid` and leaves every other key alone. -/
lemma register_admitted_userSockets (σ : ServerState) (sid ip pk : String)
    (now : Int) (h : (isRateLimited ip now σ.rateLimit).1 = false)
    (hpk : pk ≠ "") :
    (register σ sid ip (some pk) now).userSockets =
      fun k => if k = normKey pk then some sid else σ.userSockets k := by
  simp only [register, registerCore, h, Bool.false_eq_true, if_false, hpk, if_neg]

/-- An admitted registration of a truthy identifier overwrites the
socket's `data.pubKey` with the normalized key. -/
lemma register_admitted_sockData (σ : ServerState) (sid ip pk : String)
    (now : Int) (h : (isRateLimited ip now σ.rateLimit).1 = false)
    (hpk : pk ≠ "") :
    (register σ sid ip (some pk) now).sockData =
      fun s => if s = sid then some (normKey pk) else σ.sockData s := by
  simp only [register, registerCore, h, Bool.false_eq_true, if_false, hpk, if_neg]

/-- A `register` event with an absent identifier changes nothing but the
rate table (the gate has already charged the origin). -/
lemma register_none_eq (σ : ServerState) (sid ip : String) (now : Int) :
    register σ sid ip none now =
      { σ with rateLimit := (isRateLimited ip now σ.rateLimit).2 } := by
  simp only [register, registerCore]
  split <;> rfl

/-- A `register` event with the literal empty-string identifier changes
nothing but the rate table: `""` is falsy, so `if (!pubKey) return`. -/
lemma register_empty_eq (σ : ServerState) (sid ip : String) (now : Int) :
    register σ sid ip (some "") now =
      { σ with rateLimit := (isRateLimited ip now σ.rateLimit).2 } := by
  simp only [register, registerCore]
  split
  · rfl
  · simp

/-- Disconnect of a socket whose `data.pubKey` is a nonempty string
deletes exactly that key from `userSockets`. -/
lemma disconnect_userSockets (σ : ServerState) (sid pk : String)
    (h : σ.sockData sid = some pk) (hpk : pk ≠ "") :
    (disconnect σ sid).userSockets =
      fun k => if k = pk then none else σ.userSockets k := by
  unfold disconnect
  rw [h]
  simp [hpk]

/-- C1 counterexample: `c1` registers `"a"`, `c2` re-registers `"a"`
(displacing `c1`), then `c1` disconnects. The disconnect handler deletes
`userSockets[socket.data.pubKey]` without checking that the mapping still
points at `c1`, so `resolve "a"` is not-found — not `c2` as claimed. -/
theorem c1_counterexample :
    resolve (disconnect (register (register initialState "c1" "ip1" (some "a") 0)
      "c2" "ip2" (some "a") 0) "c1") "a" = none ∧
    resolve (disconnect (register (register initialState "c1" "ip1" (some "a") 0)
      "c2" "ip2" (some "a") 0) "c1") "a" ≠ some "c2" := by
  constructor <;> decide

/-- C1 (amended): the disconnect-time cleanup removes the registry mapping
for the attached identifier unconditionally — even when it has been
displaced and now points at `c2` — so after `c1` registers `a`, `c2`
re-registers `a` and `c1` disconnects, `resolve a` is not-found and `c2`'s
registration is lost. -/
theorem c1_unconditional_cleanup (σ : ServerState) (c1 c2 ip1 ip2 a : String)
    (t1 t2 : Int)
    (h1 : (isRateLimited ip1 t1 σ.rateLimit).1 = false)
    (h2 : (isRateLimited ip2 t2 (register σ c1 ip1 (some a) t1).rateLimit).1 = false)
    (ha : a ≠ "") (hna : normKey a ≠ "") :
    resolve (disconnect (register (register σ c1 ip1 (some a) t1)
      c2 ip2 (some a) t2) c1) a = none := by
  have hsd1 := register_admitted_sockData σ c1 ip1 a t1 h1 ha
  have hsd2 := register_admitted_sockData (register σ c1 ip1 (some a) t1)
    c2 ip2 a t2 h2 ha
  have hc1 : (register (register σ c1 ip1 (some a) t1) c2 ip2 (some a) t2).sockData c1 =
      some (normKey a) := by
    rw [hsd2]
    by_cases h : c1 = c2 <;> simp [h, hsd1]
  have hus := disconnect_userSockets _ c1 (normKey a) hc1 hna
  unfold resolve
  rw [hus]
  simp

/-- C1 witness: the amended statement at a concrete trace. -/
theorem c1_unconditional_cleanup_witness :
    (isRateLimited "i1" 0 initialState.rateLimit).1 = false ∧
    resolve (disconnect (register (register initialState "x" "i1" (some "k") 0)
      "y" "i2" (some "k") 3) "x") "k" = none :=
  ⟨by decide, c1_unconditional_cleanup initialState "x" "y" "i1" "i2" "k" 0 3
    (by decide) (by decide) (by decide) (by decide)⟩

/-- C2 counterexample: a whitespace-only identifier `" "` passes the
`if (!pubKey)` truthiness check (it runs before normalization), registers
under the empty key `""`, and sets `socket.data.pubKey = ""`; at
disconnect, `if (socket.data.pubKey)` is falsy, so the stale mapping
survives and `resolve " "` still returns the dead socket, not not-found. -/
theorem c2_counterexample :
    resolve (disconnect (register initialState "s1" "ip" (some " ") 0) "s1") " " =
      some "s1" ∧
    resolve (disconnect (register initialState "s1" "ip" (some " ") 0) "s1") " " ≠
      none := by
  constructor <;> decide

/-- C2 (amended): disconnect cleanup makes `resolve a` not-found — after
any sequence of prior register events by the same connection — provided
the identifier's normalized form is nonempty (a whitespace-only
identifier registers under the empty key, which cleanup skips). -/
theorem c2_disconnect_cleanup (σ : ServerState)
    (evs : List (Option String × Int)) (sid ip a : String) (now : Int)
    (ha : a ≠ "") (hna : normKey a ≠ "")
    (hadm : (isRateLimited ip now (applyRegisters σ sid ip evs).rateLimit).1 = false) :
    resolve (disconnect (register (applyRegisters σ sid ip evs)
      sid ip (some a) now) sid) a = none := by
  have hsd := register_admitted_sockData (applyRegisters σ sid ip evs)
    sid ip a now hadm ha
  have hself : (register (applyRegisters σ sid ip evs) sid ip (some a) now).sockData sid =
      some (normKey a) := by
    rw [hsd]
    simp
  have hus := disconnect_userSockets _ sid (normKey a) hself hna
  unfold resolve
  rw [hus]
  simp

/-- C2 witness: the amended statement on a concrete trace with one prior
register event by the same connection. -/
theorem c2_disconnect_cleanup_witness :
    (isRateLimited "i" 7
      (applyRegisters initialState "s" "i" [(some "old", 0)]).rateLimit).1 = false ∧
    resolve (disconnect (register (applyRegisters initialState "s" "i"
      [(some "old", 0)]) "s" "i" (some "a") 7) "s") "a" = none :=
  ⟨by decide, c2_disconnect_cleanup initialState [(some "old", 0)] "s" "i" "a" 7
    (by decide) (by decide) (by decide)⟩

/-- C3 counterexample: the same socket registers `"a"` and then `"b"`;
`socket.data.pubKey` is overwritten by the second registration, so the
attached identifier is not set at most once. -/
theorem c3_counterexample :
    (register initialState "s" "ip" (some "a") 0).sockData "s" = some "a" ∧
    (register (register initialState "s" "ip" (some "a") 0)
      "s" "ip" (some "b") 1).sockData "s" = some "b" ∧
    (register (register initialState "s" "ip" (some "a") 0)
      "s" "ip" (some "b") 1).sockData "s" ≠ some "a" := by
  refine ⟨by decide, by decide, by decide⟩

/-- C3 (amended): the attached identifier is overwritten by every admitted
registration of a truthy identifier: after such a registration it equals
the normalized identifier of that (most recent) registration, whatever
value it held before. -/
theorem c3_attached_identifier_last_wins (σ : ServerState) (sid ip pk : String)
    (now : Int)
    (hadm : (isRateLimited ip now σ.rateLimit).1 = false) (hpk : pk ≠ "") :
    (register σ sid ip (some pk) now).sockData sid = some (normKey pk) := by
  rw [register_admitted_sockData σ sid ip pk now hadm hpk]
  simp

/-- C3 witness: the amended statement at a concrete state in which the
socket already has an attached identifier. -/
theorem c3_attached_identifier_last_wins_witness :
    (isRateLimited "i" 1 (register initialState "s" "i" (some "a") 0).rateLimit).1 =
      false ∧
    (register (register initialState "s" "i" (some "a") 0)
      "s" "i" (some "b") 1).sockData "s" = some "b" :=
  ⟨by decide, c3_attached_identifier_last_wins
    (register initialState "s" "i" (some "a") 0) "s" "i" "b" 1
    (by decide) (by decide)⟩

/-- C4 counterexample: a whitespace-only identifier is not a no-op — the
falsy check runs on the raw identifier before normalization, so
`register " "` inserts `userSockets[""] = socket.id` and sets the
attached identifier to `""`. -/
theorem c4_counterexample :
    normKey " " = "" ∧
    (register initialState "s" "ip" (some " ") 0).userSockets "" = some "s" ∧
    (register initialState "s" "ip" (some " ") 0).sockData "s" = some "" := by
  refine ⟨by decide, by decide, by decide⟩

/-- C4 (amended): the emptiness check precedes normalization: an absent or
literally empty identifier leaves the registry and the attached identifier
unchanged, while any nonempty identifier — including a whitespace-only
one, whose normalized form is empty — is admitted to the registration
body, which maps its normalized key to the socket and records that key as
the attached identifier. -/
theorem c4_empty_check_before_normalization (σ : ServerState)
    (sid ip pk : String) (now : Int) (hpk : pk ≠ "")
    (hadm : (isRateLimited ip now σ.rateLimit).1 = false) :
    (register σ sid ip none now).userSockets = σ.userSockets ∧
    (register σ sid ip none now).sockData = σ.sockData ∧
    (register σ sid ip (some "") now).userSockets = σ.userSockets ∧
    (register σ sid ip (some "") now).sockData = σ.sockData ∧
    (register σ sid ip (some pk) now).userSockets (normKey pk) = some sid ∧
    (register σ sid ip (some pk) now).sockData sid = some (normKey pk) := by
  refine ⟨by rw [register_none_eq], by rw [register_none_eq],
    by rw [register_empty_eq], by rw [register_empty_eq], ?_, ?_⟩
  · rw [register_admitted_userSockets σ sid ip pk now hadm hpk]
    simp
  · rw [register_admitted_sockData σ sid ip pk now hadm hpk]
    simp

/-- C4 witness: the amended statement with the whitespace-only identifier
`" "` itself as the nonempty identifier. -/
theorem c4_empty_check_before_normalization_witness :
    (" " : String) ≠ "" ∧
    (register initialState "s" "i" (some " ") 0).userSockets (normKey " ") =
      some "s" :=
  ⟨by decide, (c4_empty_check_before_normalization initialState "s" "i" " " 0
    (by decide) (by decide)).2.2.2.2.1⟩

/-- C6: register/resolve round trip. An admitted registration of a truthy
identifier makes `resolve` return that socket; a second admitted
registration of the same identifier by another socket displaces the first
(last-writer-wins); and resolving under any string with the same
normalized form finds the registered socket. -/
theorem c6_register_resolve_roundtrip (σ : ServerState)
    (c1 c2 ip1 ip2 a b : String) (t1 t2 : Int)
    (ha : a ≠ "") (hnorm : normKey a = normKey b)
    (h1 : (isRateLimited ip1 t1 σ.rateLimit).1 = false)
    (h2 : (isRateLimited ip2 t2 (register σ c1 ip1 (some a) t1).rateLimit).1 = false) :
    resolve (register σ c1 ip1 (some a) t1) a = some c1 ∧
    resolve (register (register σ c1 ip1 (some a) t1) c2 ip2 (some a) t2) a =
      some c2 ∧
    resolve (register σ c1 ip1 (some a) t1) b = some c1 := by
  have hus1 := register_admitted_userSockets σ c1 ip1 a t1 h1 ha
  have hus2 := register_admitted_userSockets (register σ c1 ip1 (some a) t1)
    c2 ip2 a t2 h2 ha
  refine ⟨?_, ?_, ?_⟩
  · unfold resolve
    rw [hus1]
    simp
  · unfold resolve
    rw [hus2]
    simp
  · unfold resolve
    rw [hus1, ← hnorm]
    simp

/-- C6 witness: the round trip at `" a b "`, resolved under `"ab"`, and a
displacement by a second socket. -/
theorem c6_register_resolve_roundtrip_witness :
    normKey " a b " = normKey "ab" ∧
    resolve (register initialState "c1" "i1" (some " a b ") 0) " a b " = some "c1" ∧
    resolve (register (register initialState "c1" "i1" (some " a b ") 0)
      "c2" "i2" (some " a b ") 1) " a b " = some "c2" ∧
    resolve (register initialState "c1" "i1" (some " a b ") 0) "ab" = some "c1" := by
  have h := c6_register_resolve_roundtrip initialState "c1" "c2" "i1" "i2"
    " a b " "ab" 0 1 (by decide) (by decide) (by decide) (by decide)
  exact ⟨by decide, h.1, h.2.1, h.2.2⟩

example : normKey " a b " = "ab" := by decide
example : resolve (register initialState "c1" "ip" (some "a") 0) "a" = some "c1" := by decide
example : resolve (disconnect (register initialState "c1" "ip" (some "a") 0) "c1") "a" = none := by decide
example : resolve (disconnect (register initialState "s1" "ip" (some " ") 0) "s1") " " = some "s1" := by decide
example : (runChecks "o" (fun _ => none) (List.replicate 21 0)).1.count true = 1 := by decide

lemma mem_broadcastToRoom {α : Type} (rooms : String → List String)
    (sender room : String) (P : α) (m : String) (q : α) :
    (m, q) ∈ broadcastToRoom rooms sender room P ↔
      (m ∈ rooms room ∧ m ≠ sender ∧ q = P) := by
  simp [broadcastToRoom, List.mem_filter, List.mem_map]
  aesop

/-- C7: a relay event whose normalized target is not in the registry emits
nothing (the handlers have no error path back to the sender) and leaves
`userSockets` unchanged; for the five ungated relays the whole state is
returned untouched. -/
theorem c7_relay_miss_silent (σ : ServerState) (ip toKey fromKey ct : String)
    (now : Int) (h : σ.userSockets (normKey toKey) = none) :
    (requestConnection σ ip toKey fromKey now).2 = none ∧
    (requestConnection σ ip toKey fromKey now).1.userSockets = σ.userSockets ∧
    acceptConnection σ toKey fromKey = (σ, none) ∧
    callRequest σ toKey fromKey ct = (σ, none) ∧
    callAccepted σ toKey fromKey = (σ, none) ∧
    callRejected σ toKey fromKey = (σ, none) ∧
    callEnded σ toKey fromKey = (σ, none) := by
  refine ⟨?_, ?_, ?_, ?_, ?_, ?_, ?_⟩
  · simp only [requestConnection, h]
    split <;> rfl
  · simp only [requestConnection, h]
    split <;> rfl
  · simp [acceptConnection, h]
  · simp [callRequest, h]
  · simp [callAccepted, h]
  · simp [callRejected, h]
  · simp [callEnded, h]

/-- C7 witness: a concrete relay miss on a server that has a different
identifier registered. -/
theorem c7_relay_miss_silent_witness :
    regAState.userSockets (normKey "z") = none ∧
    (requestConnection regAState "i" "z" "b" 0).2 = none ∧
    acceptConnection regAState "z" "b" = (regAState, none) :=
  ⟨by decide, (c7_relay_miss_silent regAState "i" "z" "b" "v" 0 (by decide)).1,
    (c7_relay_miss_silent regAState "i" "z" "b" "v" 0 (by decide)).2.2.1⟩

/-- C8: room broadcast. If `y` is a member of `room` and is not the sender
`x`, then `y` receives the `signal` payload exactly as sent; the sender
receives nothing from its own emission; the state is unchanged; and the
`auth` event behaves identically. -/
theorem c8_room_broadcast {α : Type} (σ : ServerState) (x y room : String)
    (P : α) (hy : y ∈ σ.rooms room) (hxy : y ≠ x) :
    (y, P) ∈ (signalHandler σ x room P).2 ∧
    (∀ q : α, (y, q) ∈ (signalHandler σ x room P).2 → q = P) ∧
    (∀ q : α, (x, q) ∉ (signalHandler σ x room P).2) ∧
    (signalHandler σ x room P).1 = σ ∧
    (y, P) ∈ (authHandler σ x room P).2 ∧
    (∀ q : α, (y, q) ∈ (authHandler σ x room P).2 → q = P) ∧
    (∀ q : α, (x, q) ∉ (authHandler σ x room P).2) ∧
    (authHandler σ x room P).1 = σ := by
  refine ⟨?_, ?_, ?_, rfl, ?_, ?_, ?_, rfl⟩ <;>
    simp only [signalHandler, authHandler, mem_broadcastToRoom]
  · exact ⟨hy, hxy, trivial⟩
  · intro q hq
    exact hq.2.2
  · intro q hq
    exact hq.2.1 rfl
  · exact ⟨hy, hxy, trivial⟩
  · intro q hq
    exact hq.2.2
  · intro q hq
    exact hq.2.1 rfl

/-- C8 witness: sockets `"x"` and `"y"` share room `"r"`; `"x"` emits a
signal with payload `"P"`. -/
theorem c8_room_broadcast_witness :
    ("y" ∈ roomState.rooms "r") ∧
    ("y", "P") ∈ (signalHandler roomState "x" "r" "P").2 ∧
    (∀ q : String, ("x", q) ∉ (signalHandler roomState "x" "r" "P").2) :=
  ⟨by decide,
    (c8_room_broadcast roomState "x" "y" "r" "P" (by decide) (by decide)).1,
    (c8_room_broadcast roomState "x" "y" "r" "P" (by decide) (by decide)).2.2.1⟩

/-- C9: only `register` and `request-connection` consult the rate limiter.
Every other handler leaves the whole state (in particular the `rateLimit`
Map) untouched or, for `join`, changes only room membership, and its
behavior is invariant under replacing the rate table — so it can never be
rejected by it. The final six conjuncts exhibit that the two gated
handlers really do read and update the table: with an exhausted window
`register` and `request-connection` drop their event, and with a fresh
table they act and charge the origin. -/
theorem c9_rate_gate_exactly_two (σ : ServerState) (rl2 : RateTable)
    (toKey fromKey ct sid room x : String) (pay : String) :
    acceptConnection σ toKey fromKey = (σ, (acceptConnection σ toKey fromKey).2) ∧
    (acceptConnection { σ with rateLimit := rl2 } toKey fromKey).2 =
      (acceptConnection σ toKey fromKey).2 ∧
    callRequest σ toKey fromKey ct = (σ, (callRequest σ toKey fromKey ct).2) ∧
    (callRequest { σ with rateLimit := rl2 } toKey fromKey ct).2 =
      (callRequest σ toKey fromKey ct).2 ∧
    callAccepted σ toKey fromKey = (σ, (callAccepted σ toKey fromKey).2) ∧
    (callAccepted { σ with rateLimit := rl2 } toKey fromKey).2 =
      (callAccepted σ toKey fromKey).2 ∧
    callRejected σ toKey fromKey = (σ, (callRejected σ toKey fromKey).2) ∧
    (callRejected { σ with rateLimit := rl2 } toKey fromKey).2 =
      (callRejected σ toKey fromKey).2 ∧
    callEnded σ toKey fromKey = (σ, (callEnded σ toKey fromKey).2) ∧
    (callEnded { σ with rateLimit := rl2 } toKey fromKey).2 =
      (callEnded σ toKey fromKey).2 ∧
    (joinRoom σ sid room).rateLimit = σ.rateLimit ∧
    joinRoom { σ with rateLimit := rl2 } sid room =
      { joinRoom σ sid room with rateLimit := rl2 } ∧
    (signalHandler σ x room pay).1 = σ ∧
    (signalHandler { σ with rateLimit := rl2 } x room pay).2 =
      (signalHandler σ x room pay).2 ∧
    (authHandler σ x room pay).1 = σ ∧
    (authHandler { σ with rateLimit := rl2 } x room pay).2 =
      (authHandler σ x room pay).2 ∧
    (register rateFullState "s" "ip" (some "a") 0).userSockets "a" = none ∧
    (register initialState "s" "ip" (some "a") 0).userSockets "a" = some "s" ∧
    (register initialState "s" "ip" (some "a") 0).rateLimit "ip" = some ⟨1, 0⟩ ∧
    (requestConnection regAFullState "ip" "a" "b" 0).2 = none ∧
    (requestConnection regAState "ip" "a" "b" 0).2 =
      some ("sa", OutEvent.incomingRequest "b") ∧
    (requestConnection regAState "ip" "a" "b" 0).1.rateLimit "ip" = some ⟨1, 0⟩ := by
  refine ⟨?_, ?_, ?_, ?_, ?_, ?_, ?_, ?_, ?_, ?_, rfl, rfl, rfl, rfl, rfl, rfl,
    by decide, by decide, by decide, by decide, by decide, by decide⟩ <;>
    first
      | (simp only [acceptConnection]
         cases h : σ.userSockets (normKey toKey) <;> simp [h])
      | (simp only [callRequest]
         cases h : σ.userSockets (normKey toKey) <;> simp [h])
      | (simp only [callAccepted]
         cases h : σ.userSockets (normKey toKey) <;> simp [h])
      | (simp only [callRejected]
         cases h : σ.userSockets (normKey toKey) <;> simp [h])
      | (simp only [callEnded]
         cases h : σ.userSockets (normKey toKey) <;> simp [h])

/-- Within one window (every check at most `TIME_FRAME` after the window
start `s`), a run of checks starting from a stored record `⟨c, s⟩` rejects
exactly the checks from index `LIMIT - c` on, and leaves the stored count
at `min (c + n) LIMIT` with the window start untouched. -/
lemma runChecks_window (ip : String) (s : Int) (ts : List Int) :
    ∀ (rl : RateTable) (c : Nat), rl ip = some ⟨c, s⟩ → c ≤ LIMIT →
    (∀ t ∈ ts, t - s ≤ TIME_FRAME) →
    (runChecks ip rl ts).1 =
      (List.range ts.length).map (fun i => decide (LIMIT ≤ c + i)) ∧
    (runChecks ip rl ts).2 ip = some ⟨min (c + ts.length) LIMIT, s⟩ := by
  induction ts with
  | nil =>
    intro rl c hrl hc _
    simp [runChecks, hrl, Nat.min_eq_left hc]
  | cons t ts ih =>
    intro rl c hrl hc hw
    have hwt : ¬ (t - s > TIME_FRAME) := by
      have := hw t (by simp)
      omega
    have hwts : ∀ u ∈ ts, u - s ≤ TIME_FRAME := fun u hu => hw u (by simp [hu])
    by_cases hfull : c ≥ LIMIT
    · have hc20 : c = LIMIT := le_antisymm hc hfull
      have hlim : isRateLimited ip t rl = (true, rl) := by
        simp [isRateLimited, hrl, hwt, hfull]
      obtain ⟨ih1, ih2⟩ := ih rl c hrl hc hwts
      subst hc20
      constructor
      · simp only [runChecks, hlim, ih1, List.length_cons]
        rw [List.range_succ_eq_map, List.map_cons, List.map_map]
        simp [Nat.le_add_right]
      · simp only [runChecks, hlim, List.length_cons]
        rw [ih2]
        have hmin : min (LIMIT + ts.length) LIMIT = min (LIMIT + (ts.length + 1)) LIMIT := by
          omega
        rw [hmin]
    · have hlim : isRateLimited ip t rl = (false, setRate rl ip ⟨c + 1, s⟩) := by
        simp [isRateLimited, hrl, hwt, hfull]
      have hrl2 : setRate rl ip ⟨c + 1, s⟩ ip = some ⟨c + 1, s⟩ := by
        simp [setRate]
      obtain ⟨ih1, ih2⟩ := ih (setRate rl ip ⟨c + 1, s⟩) (c + 1) hrl2 (by omega) hwts
      constructor
      · simp only [runChecks, hlim, ih1, List.length_cons]
        rw [List.range_succ_eq_map, List.map_cons, List.map_map]
        have h0 : ¬ (LIMIT ≤ c + 0) := by omega
        have hfe : (fun i => decide (LIMIT ≤ c + 1 + i)) =
            (fun i => decide (LIMIT ≤ c + (i + 1))) := by
          funext i
          have : c + 1 + i = c + (i + 1) := by omega
          rw [this]
        simp only [h0, decide_eq_false_iff_not, hfe, Function.comp]
        rfl
      · simp only [runChecks, hlim, List.length_cons]
        rw [ih2]
        have hmin : min (c + 1 + ts.length) LIMIT = min (c + (ts.length + 1)) LIMIT := by
          omega
        rw [hmin]

/-- Run of checks from an origin with no record: the first check opens the
window; within it, check `i` (0-based) is rejected exactly when
`LIMIT ≤ i`, i.e. checks 1..20 are admitted and every later one rejected. -/
lemma runChecks_fresh_window (rl : RateTable) (ip : String) (t0 : Int)
    (ts : List Int) (hfresh : rl ip = none)
    (hw : ∀ t ∈ ts, t - t0 ≤ TIME_FRAME) :
    (runChecks ip rl (t0 :: ts)).1 =
      (List.range (ts.length + 1)).map (fun i => decide (LIMIT ≤ i)) := by
  have hlim : isRateLimited ip t0 rl = (false, setRate rl ip ⟨1, t0⟩) := by
    simp [isRateLimited, hfresh]
  have hrl1 : setRate rl ip ⟨1, t0⟩ ip = some ⟨1, t0⟩ := by
    simp [setRate]
  obtain ⟨h1, _⟩ := runChecks_window ip t0 ts (setRate rl ip ⟨1, t0⟩) 1 hrl1
    (by decide) hw
  simp only [runChecks, hlim, h1]
  rw [List.range_succ_eq_map, List.map_cons, List.map_map]
  have hfe : (fun i => decide (LIMIT ≤ 1 + i)) =
      ((fun i => decide (LIMIT ≤ i)) ∘ Nat.succ) := by
    funext i
    have : 1 + i = Nat.succ i := by omega
    rw [this]
    rfl
  rw [hfe]
  rfl

/-- Number of admitted checks among the first `n` of an in-window run. -/
lemma count_false_window (n : Nat) :
    ((List.range n).map (fun i => decide (LIMIT ≤ i))).count false = min n LIMIT := by
  induction n with
  | zero => simp
  | succ n ih =>
    rw [List.range_succ, List.map_append, List.count_append, ih]
    by_cases h : LIMIT ≤ n
    · simp [h]
      omega
    · simp [h]
      omega

/-- C5: fixed-window rate limiting. For a fresh origin, a run of checks
all within `TIME_FRAME` of the first check admits check `i` (0-based)
exactly when `i < LIMIT` — checks 1 through 20 are admitted and check 21
onward rejected — and for any origin whose stored window start lies more
than `TIME_FRAME` in the past, the next check is admitted and the stored
record restarts at count 1 with the new start time, regardless of the
prior count. -/
theorem c5_fixed_window (rl rl2 : RateTable) (ip ip2 : String) (t0 now : Int)
    (ts : List Int) (c2 : Nat) (s2 : Int)
    (hfresh : rl ip = none) (hw : ∀ t ∈ ts, t - t0 ≤ TIME_FRAME)
    (hrec : rl2 ip2 = some ⟨c2, s2⟩) (hpast : now - s2 > TIME_FRAME) :
    (runChecks ip rl (t0 :: ts)).1 =
      (List.range (ts.length + 1)).map (fun i => decide (LIMIT ≤ i)) ∧
    (isRateLimited ip2 now rl2).1 = false ∧
    (isRateLimited ip2 now rl2).2 ip2 = some ⟨1, now⟩ := by
  refine ⟨runChecks_fresh_window rl ip t0 ts hfresh hw, ?_, ?_⟩
  · simp [isRateLimited, hrec, hpast]
  · simp [isRateLimited, hrec, hpast, setRate]

/-- C5 witness: a fresh origin checked three times inside one window, and
an origin with a stale window (count 7, started at 0) checked at 70000. -/
theorem c5_fixed_window_witness :
    ((fun _ => none : RateTable) "o" = none) ∧
    ((70000 : Int) - 0 > TIME_FRAME) ∧
    ((runChecks "o" (fun _ => none) (0 :: [10, 60000])).1 =
      (List.range (([10, 60000] : List Int).length + 1)).map
        (fun i => decide (LIMIT ≤ i)) ∧
    (isRateLimited "p" 70000 (fun _ => some ⟨7, 0⟩)).1 = false ∧
    (isRateLimited "p" 70000 (fun _ => some ⟨7, 0⟩)).2 "p" = some ⟨1, 70000⟩) :=
  ⟨rfl, by decide,
    c5_fixed_window (fun _ => none) (fun _ => some ⟨7, 0⟩) "o" "p" 0 70000
      [10, 60000] 7 0 rfl (by decide) rfl (by decide)⟩

/-- C10: the stored count never exceeds `LIMIT`: any `isRateLimited` call
preserves the invariant that every stored record's count is at most
`LIMIT`; a rejected check leaves the whole table unchanged (no increment);
and in an in-window run from a fresh origin, at most `LIMIT` checks are
admitted. -/
theorem c10_count_bounded (rl rlf : RateTable) (ip ipf : String)
    (now t0 : Int) (ts : List Int)
    (hinv : ∀ j r, rl j = some r → r.count ≤ LIMIT)
    (hfresh : rlf ipf = none) (hw : ∀ t ∈ ts, t - t0 ≤ TIME_FRAME) :
    (∀ j r, (isRateLimited ip now rl).2 j = some r → r.count ≤ LIMIT) ∧
    ((isRateLimited ip now rl).1 = true → (isRateLimited ip now rl).2 = rl) ∧
    (runChecks ipf rlf (t0 :: ts)).1.count false ≤ LIMIT := by
  refine ⟨?_, ?_, ?_⟩
  · intro j r h
    rcases hrec : rl ip with _ | rec
    · simp only [isRateLimited, hrec, setRate] at h
      by_cases hj : j = ip
      · subst hj
        rw [if_pos rfl] at h
        simp only [Option.some.injEq] at h
        subst h
        show 1 ≤ LIMIT
        decide
      · rw [if_neg hj] at h
        exact hinv j r h
    · simp only [isRateLimited, hrec] at h
      split_ifs at h with h1 h2
      · simp only [setRate] at h
        by_cases hj : j = ip
        · subst hj
          rw [if_pos rfl] at h
          simp only [Option.some.injEq] at h
          subst h
          show 1 ≤ LIMIT
          decide
        · rw [if_neg hj] at h
          exact hinv j r h
      · exact hinv j r h
      · simp only [setRate] at h
        by_cases hj : j = ip
        · subst hj
          rw [if_pos rfl] at h
          simp only [Option.some.injEq] at h
          subst h
          show rec.count + 1 ≤ LIMIT
          omega
        · rw [if_neg hj] at h
          exact hinv j r h
  · intro htrue
    rcases hrec : rl ip with _ | rec
    · simp [isRateLimited, hrec] at htrue
    · simp only [isRateLimited, hrec] at htrue ⊢
      split_ifs at htrue ⊢
      simp_all
  · rw [runChecks_fresh_window rlf ipf t0 ts hfresh hw, count_false_window]
    omega

/-- C10 witness: one check on a table satisfying the invariant, and a
concrete 22-check in-window run from a fresh origin. -/
theorem c10_count_bounded_witness :
    (∀ j r, (fun _ => some ⟨20, 0⟩ : RateTable) j = some r → r.count ≤ LIMIT) ∧
    ((runChecks "o" (fun _ => none) (0 :: List.replicate 21 5)).1.count false ≤
      LIMIT) := by
  have h := c10_count_bounded (fun _ => some ⟨20, 0⟩) (fun _ => none) "i" "o"
    3 0 (List.replicate 21 5)
    (by intro j r hr; cases hr; decide) rfl (by decide)
  exact ⟨fun j r hr => by cases hr; decide, h.2.2⟩
